import Mathlib

/-!
Shallow embedding of src/application.py (TradingSignal), a small Flask
relay: load a configuration from an INI file, log into a brokerage,
fetch a trade signal over HTTP, and place a limit order.

External collaborators (the robinhood client and the requests library)
are modelled by a `World` record that fixes, for one orchestration run,
whether each collaborator call raises and what the HTTP response is.
Each function of the source becomes a Lean function that also returns
the list of collaborator calls it performed, so that claims about which
calls happen can be stated.
-/

namespace TradingSignal

/-- Python scalar values as they occur after JSON decoding. A float is
carried together with its Python string rendering (the code never does
arithmetic on numbers, it only passes them through and formats them). -/
inductive PyVal where
  | vNone
  | vStr (s : String)
  | vInt (n : Int)
  | vFloat (lit : String)
  | vBool (b : Bool)
deriving DecidableEq, Repr

/-- Python str() of a scalar, as used by the f-strings in application.py. -/
def pyStr : PyVal → String
  | PyVal.vNone => "None"
  | PyVal.vStr s => s
  | PyVal.vInt n => toString n
  | PyVal.vFloat lit => lit
  | PyVal.vBool true => "True"
  | PyVal.vBool false => "False"

/-- A decoded JSON object: association list of keys to scalar values
(Python dict keys are unique; lookup takes the first match). -/
abbrev JsonObj := List (String × PyVal)

/-- Python dict.get(k): some value when the key is present, none otherwise. -/
def jget (o : JsonObj) (k : String) : Option PyVal :=
  (o.find? (fun p => p.1 == k)).map (fun p => p.2)

/-- Python dict.get(k, d): the value when the key is present, d otherwise. -/
def jgetD (o : JsonObj) (k : String) (d : PyVal) : PyVal :=
  (jget o k).getD d

/-- An INI file as configparser sees it: sections, each a list of
options. Option names are stored lowercased (configparser optionxform). -/
abbrev Ini := List (String × List (String × String))

/-- configparser optionxform: lowercase the option name (str.lower),
written as a structural map over the characters. -/
def toLowerStr (s : String) : String :=
  String.mk (s.data.map Char.toLower)

/-- configparser.ConfigParser.get(section, option, fallback): the stored
value, or the fallback when the section or the option is absent. Option
lookup lowercases the requested name, as optionxform does. -/
def cfgGet (ini : Ini) (sect : String) (key : String) (fallback : String) : String :=
  match ini.find? (fun s => s.1 == sect) with
  | none => fallback
  | some s =>
    match s.2.find? (fun p => p.1 == toLowerStr key) with
    | none => fallback
    | some p => p.2

/-- configparser BOOLEAN_STATES: the strings getboolean accepts. -/
def BOOLEAN_STATES : List (String × Bool) :=
  [("1", true), ("yes", true), ("true", true), ("on", true),
   ("0", false), ("no", false), ("false", false), ("off", false)]

/-- configparser.ConfigParser.getboolean(section, option, fallback):
fallback when the section or option is absent; parses the stored value
through BOOLEAN_STATES, raising ValueError (error) when unrecognized. -/
def cfgGetBoolean (ini : Ini) (sect : String) (key : String) (fallback : Bool) :
    Except String Bool :=
  match ini.find? (fun s => s.1 == sect) with
  | none => Except.ok fallback
  | some s =>
    match s.2.find? (fun p => p.1 == toLowerStr key) with
    | none => Except.ok fallback
    | some p =>
      match BOOLEAN_STATES.find? (fun q => q.1 == toLowerStr p.2) with
      | none => Except.error ("Not a boolean: " ++ p.2)
      | some q => Except.ok q.2

/-- The module-level configuration values of application.py, lines 15-21. -/
structure Config where
  RH_USERNAME : String
  RH_PASSWORD : String
  MFA_CODE : String
  MASTER_TRADE_SIGNAL_URL : String
  USER_TOKEN : String
  SYMBOL : String
  AUTO_TRADE : Bool
deriving DecidableEq, Repr

/-- Lines 12-21 of application.py: read config.ini and extract the seven
values from section "default", each with its fallback. A ValueError from
getboolean propagates (the module fails to load). -/
def loadConfig (ini : Ini) : Except String Config :=
  match cfgGetBoolean ini "default" "AUTO_TRADE" false with
  | Except.error e => Except.error e
  | Except.ok b =>
    Except.ok
      { RH_USERNAME := cfgGet ini "default" "ROBINHOOD_USERNAME" ""
        RH_PASSWORD := cfgGet ini "default" "ROBINHOOD_PASSWORD" ""
        MFA_CODE := cfgGet ini "default" "MFA_CODE" ""
        MASTER_TRADE_SIGNAL_URL := cfgGet ini "default" "MASTER_TRADE_SIGNAL_URL" ""
        USER_TOKEN := cfgGet ini "default" "USER_TOKEN" ""
        SYMBOL := cfgGet ini "default" "SYMBOL" ""
        AUTO_TRADE := b }

/-- One collaborator call made by the application: a robinhood.login call
(with or without an mfa_code argument), the requests.post to the master
URL, or one of the two order placement calls. -/
inductive Call where
  | loginCall (username : String) (password : String) (mfa : Option String)
  | postCall (url : String) (token : String) (symbol : String)
  | buyCall (symbol : PyVal) (quantity : PyVal) (limitPrice : PyVal)
  | sellCall (symbol : PyVal) (quantity : PyVal) (limitPrice : PyVal)
deriving DecidableEq, Repr

/-- Whether a call is one of the two order placement operations. -/
def Call.isOrder : Call → Bool
  | Call.buyCall _ _ _ => true
  | Call.sellCall _ _ _ => true
  | _ => false

/-- Number of order placement calls in a trace. -/
def orderCount (t : List Call) : Nat :=
  (t.filter Call.isOrder).length

/-- The requests.Response the master URL returns: status code, body text,
and the result of resp.json() (error when the body is not valid JSON,
carrying the text of the raised exception). -/
structure HttpResponse where
  status_code : Int
  text : String
  jsonBody : Except String JsonObj

/-- Behaviour of the external collaborators during one run: whether
robinhood.login raises (and the exception text), what requests.post does
(raise, or return a response), and whether each order call raises. -/
structure World where
  loginExn : Option String
  postResult : Except String HttpResponse
  buyExn : Option String
  sellExn : Option String

/-- Lines 26-40 of application.py: login_to_robinhood passes mfa_code
exactly when the Python truthiness test on MFA_CODE succeeds, that is
when the string is nonempty. Returns the login call it issues. -/
def login_to_robinhood (cfg : Config) : Call :=
  if cfg.MFA_CODE ≠ "" then
    Call.loginCall cfg.RH_USERNAME cfg.RH_PASSWORD (some cfg.MFA_CODE)
  else
    Call.loginCall cfg.RH_USERNAME cfg.RH_PASSWORD none

/-- Lines 83-132 of application.py: do_trade_logic. Returns the Python
outcome — Except.ok (success, message) when the function returns
normally, Except.error e when an uncaught exception e propagates (the
resp.json() call on line 106 is outside every try block) — paired with
the list of collaborator calls performed, in order. -/
def do_trade_logic (cfg : Config) (w : World) :
    Except String (Bool × String) × List Call :=
  match w.loginExn with
  | some e =>
    (Except.ok (false, "Robinhood login failed: " ++ e), [login_to_robinhood cfg])
  | none =>
    match w.postResult with
    | Except.error e =>
      (Except.ok (false, "Error calling master: " ++ e),
       [login_to_robinhood cfg,
        Call.postCall cfg.MASTER_TRADE_SIGNAL_URL cfg.USER_TOKEN cfg.SYMBOL])
    | Except.ok resp =>
      if resp.status_code ≠ 200 then
        (Except.ok (false, "Master returned error: " ++ resp.text),
         [login_to_robinhood cfg,
          Call.postCall cfg.MASTER_TRADE_SIGNAL_URL cfg.USER_TOKEN cfg.SYMBOL])
      else
        match resp.jsonBody with
        | Except.error e =>
          (Except.error e,
           [login_to_robinhood cfg,
            Call.postCall cfg.MASTER_TRADE_SIGNAL_URL cfg.USER_TOKEN cfg.SYMBOL])
        | Except.ok signal =>
          if jgetD signal "action" PyVal.vNone = PyVal.vStr "BUY" then
            match w.buyExn with
            | some e =>
              (Except.ok (false, "Order placement failed: " ++ e),
               [login_to_robinhood cfg,
                Call.postCall cfg.MASTER_TRADE_SIGNAL_URL cfg.USER_TOKEN cfg.SYMBOL,
                Call.buyCall (jgetD signal "symbol" PyVal.vNone)
                  (jgetD signal "quantity" (PyVal.vInt 1))
                  (jgetD signal "limitPrice" PyVal.vNone)])
            | none =>
              (Except.ok (true, "Subscribed successfully to trading strategy"),
               [login_to_robinhood cfg,
                Call.postCall cfg.MASTER_TRADE_SIGNAL_URL cfg.USER_TOKEN cfg.SYMBOL,
                Call.buyCall (jgetD signal "symbol" PyVal.vNone)
                  (jgetD signal "quantity" (PyVal.vInt 1))
                  (jgetD signal "limitPrice" PyVal.vNone)])
          else if jgetD signal "action" PyVal.vNone = PyVal.vStr "SELL" then
            match w.sellExn with
            | some e =>
              (Except.ok (false, "Order placement failed: " ++ e),
               [login_to_robinhood cfg,
                Call.postCall cfg.MASTER_TRADE_SIGNAL_URL cfg.USER_TOKEN cfg.SYMBOL,
                Call.sellCall (jgetD signal "symbol" PyVal.vNone)
                  (jgetD signal "quantity" (PyVal.vInt 1))
                  (jgetD signal "limitPrice" PyVal.vNone)])
            | none =>
              (Except.ok (true, "Subscribed successfully to trading strategy"),
               [login_to_robinhood cfg,
                Call.postCall cfg.MASTER_TRADE_SIGNAL_URL cfg.USER_TOKEN cfg.SYMBOL,
                Call.sellCall (jgetD signal "symbol" PyVal.vNone)
                  (jgetD signal "quantity" (PyVal.vInt 1))
                  (jgetD signal "limitPrice" PyVal.vNone)])
          else
            (Except.ok
               (false,
                "No valid action in signal: " ++
                  pyStr (jgetD signal "action" PyVal.vNone)),
             [login_to_robinhood cfg,
              Call.postCall cfg.MASTER_TRADE_SIGNAL_URL cfg.USER_TOKEN cfg.SYMBOL])

/-- The rendered HTML page: the four template variables passed to
render_template_string (the template itself is static text). -/
structure Page where
  email : String
  symbol : String
  message_success : Option String
  message_error : Option String
deriving DecidableEq, Repr

/-- Lines 137-145: the GET / handler. Performs no collaborator call. -/
def home (cfg : Config) : Except String Page × List Call :=
  (Except.ok
     { email := cfg.RH_USERNAME, symbol := cfg.SYMBOL
       message_success := none, message_error := none },
   [])

/-- Lines 147-165: the POST /trade handler. Runs do_trade_logic and
renders its outcome; an uncaught exception from do_trade_logic
propagates past the handler. -/
def trade (cfg : Config) (w : World) : Except String Page × List Call :=
  match do_trade_logic cfg w with
  | (Except.error e, t) => (Except.error e, t)
  | (Except.ok (true, msg), t) =>
    (Except.ok
       { email := cfg.RH_USERNAME, symbol := cfg.SYMBOL
         message_success := some msg, message_error := none },
     t)
  | (Except.ok (false, msg), t) =>
    (Except.ok
       { email := cfg.RH_USERNAME, symbol := cfg.SYMBOL
         message_success := none, message_error := some msg },
     t)

/-- Lines 167-178: the POST /stop-trade handler. Renders the fixed
unsubscribe message as message_error and performs no collaborator call. -/
def stop_trade (cfg : Config) : Except String Page × List Call :=
  (Except.ok
     { email := cfg.RH_USERNAME, symbol := cfg.SYMBOL
       message_success := none
       message_error := some "Unsubscribed from trading strategy" },
   [])

/-- One incoming HTTP request to the three routes; a /trade request
carries the collaborator behaviour of its run. -/
inductive Request where
  | getHome
  | postTrade (w : World)
  | postStopTrade

/-- Dispatch one request to its route handler. -/
def handle (cfg : Config) : Request → Except String Page × List Call
  | Request.getHome => home cfg
  | Request.postTrade w => trade cfg w
  | Request.postStopTrade => stop_trade cfg

/-- One request step with the process state threaded through. The only
process-wide state is the configuration loaded at import time; no
handler assigns to it, so each step returns it unchanged. -/
def handleSt (cfg : Config) (r : Request) :
    Config × (Except String Page × List Call) :=
  (cfg, handle cfg r)

/-- Run the server over a sequence of requests, threading the process
state and collecting the responses. -/
def runServerSt (cfg : Config) (reqs : List Request) :
    Config × List (Except String Page × List Call) :=
  match reqs with
  | [] => (cfg, [])
  | r :: rs =>
    let s := handleSt cfg r
    let rest := runServerSt s.1 rs
    (rest.1, s.2 :: rest.2)

/-- Whether an INI file has the given option (by its stored, lowercased
name) in the given section. Used to state the AUTO_TRADE default. -/
def hasOption (ini : Ini) (sect : String) (key : String) : Bool :=
  match ini.find? (fun s => s.1 == sect) with
  | none => false
  | some s => (s.2.find? (fun p => p.1 == key)).isSome

/-- The action value the run decodes from the master response, when the
run reaches the decode step: none when login raises, the post raises,
the status is not 200, or the body does not parse. Used to state which
signal action a run acted on. -/
def signalAction (w : World) : Option PyVal :=
  match w.loginExn with
  | some _ => none
  | none =>
    match w.postResult with
    | Except.error _ => none
    | Except.ok resp =>
      if resp.status_code ≠ 200 then none
      else
        match resp.jsonBody with
        | Except.error _ => none
        | Except.ok signal => some (jgetD signal "action" PyVal.vNone)

/-! Concrete sample values used to instantiate the universally quantified
theorems below. -/

/-- A sample configuration. -/
def cfg0 : Config :=
  { RH_USERNAME := "trader@example.com", RH_PASSWORD := "pw"
    MFA_CODE := "", MASTER_TRADE_SIGNAL_URL := "http://master/trade-signal"
    USER_TOKEN := "tok", SYMBOL := "ZSC", AUTO_TRADE := false }

/-- A 200 response whose signal action is HOLD, not BUY or SELL. -/
def respHold : HttpResponse :=
  { status_code := 200, text := "", jsonBody := Except.ok [("action", PyVal.vStr "HOLD")] }

/-- A world in which all collaborators behave and the signal action is HOLD. -/
def wHold : World :=
  { loginExn := none, postResult := Except.ok respHold, buyExn := none, sellExn := none }

/-- A world in which robinhood.login raises. -/
def wLoginFail : World :=
  { loginExn := some "unable to log in with provided credentials"
    postResult := Except.error "not reached", buyExn := none, sellExn := none }

/-- A 500 response with body bad token. -/
def resp500 : HttpResponse :=
  { status_code := 500, text := "bad token", jsonBody := Except.error "not reached" }

/-- A world in which the master returns the 500 response. -/
def w500 : World :=
  { loginExn := none, postResult := Except.ok resp500, buyExn := none, sellExn := none }

/-- The BUY signal of the spec example, as a decoded JSON object. -/
def sigBuy : JsonObj :=
  [("action", PyVal.vStr "BUY"), ("symbol", PyVal.vStr "ZSC"),
   ("quantity", PyVal.vInt 1), ("limitPrice", PyVal.vFloat "50.0")]

/-- A 200 response carrying the BUY signal. -/
def respBuy : HttpResponse :=
  { status_code := 200, text := "", jsonBody := Except.ok sigBuy }

/-- A world in which login succeeds, the master returns the BUY signal,
and order placement succeeds. -/
def wBuy : World :=
  { loginExn := none, postResult := Except.ok respBuy, buyExn := none, sellExn := none }

/-- The BUY signal with the quantity field absent. -/
def sigNoQty : JsonObj :=
  [("action", PyVal.vStr "BUY"), ("symbol", PyVal.vStr "ZSC"),
   ("limitPrice", PyVal.vFloat "50.0")]

/-- A 200 response carrying the quantity-free BUY signal. -/
def respNoQty : HttpResponse :=
  { status_code := 200, text := "", jsonBody := Except.ok sigNoQty }

/-- A world in which the master returns the quantity-free BUY signal. -/
def wNoQty : World :=
  { loginExn := none, postResult := Except.ok respNoQty, buyExn := none, sellExn := none }

/-- A 200 response whose body is not valid JSON: resp.json() raises. -/
def respBadJson : HttpResponse :=
  { status_code := 200, text := "not json"
    jsonBody := Except.error "Expecting value: line 1 column 1 (char 0)" }

/-- A world in which login and the post succeed but the 200 body does
not parse as JSON. -/
def wBadJson : World :=
  { loginExn := none, postResult := Except.ok respBadJson, buyExn := none, sellExn := none }

/-- An INI file whose default section has no auto_trade option. -/
def iniNoAuto : Ini :=
  [("default",
    [("robinhood_username", "trader@example.com"), ("robinhood_password", "pw"),
     ("master_trade_signal_url", "http://master/trade-signal"),
     ("user_token", "tok"), ("symbol", "ZSC")])]

/-! Theorems settling the claims. -/

/-- The login call is never an order placement call. -/
@[simp] lemma isOrder_login (cfg : Config) : (login_to_robinhood cfg).isOrder = false := by
  unfold login_to_robinhood
  split <;> rfl

/-- The post call is never an order placement call. -/
@[simp] lemma isOrder_post (u t s : String) : (Call.postCall u t s).isOrder = false := rfl

/-- A buy call is an order placement call. -/
@[simp] lemma isOrder_buy (s q p : PyVal) : (Call.buyCall s q p).isOrder = true := rfl

/-- A sell call is an order placement call. -/
@[simp] lemma isOrder_sell (s q p : PyVal) : (Call.sellCall s q p).isOrder = true := rfl

/-- C1: when the run reaches the decoded signal and its action is
neither BUY nor SELL (an absent action decodes to None), do_trade_logic
returns success false with message "No valid action in signal: "
followed by the Python rendering of the action value, and the call
trace contains the login and the post but no order placement call. -/
theorem claim1_invalid_action_rejected (cfg : Config) (w : World)
    (resp : HttpResponse) (signal : JsonObj)
    (hl : w.loginExn = none) (hp : w.postResult = Except.ok resp)
    (hs : resp.status_code = 200) (hj : resp.jsonBody = Except.ok signal)
    (hbuy : jgetD signal "action" PyVal.vNone ≠ PyVal.vStr "BUY")
    (hsell : jgetD signal "action" PyVal.vNone ≠ PyVal.vStr "SELL") :
    do_trade_logic cfg w =
      (Except.ok (false,
         "No valid action in signal: " ++ pyStr (jgetD signal "action" PyVal.vNone)),
       [login_to_robinhood cfg,
        Call.postCall cfg.MASTER_TRADE_SIGNAL_URL cfg.USER_TOKEN cfg.SYMBOL]) ∧
    orderCount (do_trade_logic cfg w).2 = 0 := by
  have heq : do_trade_logic cfg w =
      (Except.ok (false,
         "No valid action in signal: " ++ pyStr (jgetD signal "action" PyVal.vNone)),
       [login_to_robinhood cfg,
        Call.postCall cfg.MASTER_TRADE_SIGNAL_URL cfg.USER_TOKEN cfg.SYMBOL]) := by
    unfold do_trade_logic
    rw [hl, hp]
    simp only [hs, hj]
    rw [if_neg (by decide : ¬ ((200 : Int) ≠ 200))]
    rw [if_neg hbuy, if_neg hsell]
  exact ⟨heq, by rw [heq]; simp [orderCount, List.filter, isOrder_login, isOrder_post]⟩

/-- C1 witness: a HOLD signal is rejected with the literal action in the
message and an order-free trace. -/
theorem claim1_witness :
    do_trade_logic cfg0 wHold =
      (Except.ok (false, "No valid action in signal: HOLD"),
       [login_to_robinhood cfg0,
        Call.postCall cfg0.MASTER_TRADE_SIGNAL_URL cfg0.USER_TOKEN cfg0.SYMBOL]) ∧
    orderCount (do_trade_logic cfg0 wHold).2 = 0 :=
  claim1_invalid_action_rejected cfg0 wHold respHold
    [("action", PyVal.vStr "HOLD")] rfl rfl rfl rfl (by decide) (by decide)

/-- C2: when robinhood.login raises with text e, do_trade_logic returns
(false, "Robinhood login failed: " ++ e), the call trace is exactly the
login call — so the post to the master and both order calls never
happen. -/
theorem claim2_login_failure_short_circuits (cfg : Config) (w : World) (e : String)
    (hl : w.loginExn = some e) :
    do_trade_logic cfg w =
      (Except.ok (false, "Robinhood login failed: " ++ e), [login_to_robinhood cfg]) ∧
    (∀ u t s, Call.postCall u t s ∉ (do_trade_logic cfg w).2) ∧
    orderCount (do_trade_logic cfg w).2 = 0 := by
  have heq : do_trade_logic cfg w =
      (Except.ok (false, "Robinhood login failed: " ++ e), [login_to_robinhood cfg]) := by
    unfold do_trade_logic
    rw [hl]
  refine ⟨heq, ?_, by rw [heq]; simp [orderCount, List.filter, isOrder_login]⟩
  intro u t s hmem
  rw [heq] at hmem
  simp only [List.mem_singleton] at hmem
  unfold login_to_robinhood at hmem
  by_cases hm : cfg.MFA_CODE ≠ "" <;> simp [hm] at hmem

/-- C2 witness: a failing login yields the login-failed outcome and a
trace holding only the login call. -/
theorem claim2_witness :
    do_trade_logic cfg0 wLoginFail =
      (Except.ok (false,
         "Robinhood login failed: unable to log in with provided credentials"),
       [login_to_robinhood cfg0]) ∧
    (∀ u t s, Call.postCall u t s ∉ (do_trade_logic cfg0 wLoginFail).2) ∧
    orderCount (do_trade_logic cfg0 wLoginFail).2 = 0 :=
  claim2_login_failure_short_circuits cfg0 wLoginFail
    "unable to log in with provided credentials" rfl

/-- A buy order call is never the login call. -/
@[simp] lemma buy_eq_login_false (cfg : Config) (s q p : PyVal) :
    (Call.buyCall s q p = login_to_robinhood cfg) = False := by
  unfold login_to_robinhood
  split <;> simp

/-- A sell order call is never the login call. -/
@[simp] lemma sell_eq_login_false (cfg : Config) (s q p : PyVal) :
    (Call.sellCall s q p = login_to_robinhood cfg) = False := by
  unfold login_to_robinhood
  split <;> simp

/-- When the run reaches a decoded signal, the call trace is determined
by the action field: login and post always, then the buy call when the
action is BUY, the sell call when it is SELL, and nothing otherwise. -/
lemma trace_of_signal (cfg : Config) (w : World) (resp : HttpResponse) (signal : JsonObj)
    (hl : w.loginExn = none) (hp : w.postResult = Except.ok resp)
    (hs : resp.status_code = 200) (hj : resp.jsonBody = Except.ok signal) :
    (do_trade_logic cfg w).2 =
      if jgetD signal "action" PyVal.vNone = PyVal.vStr "BUY" then
        [login_to_robinhood cfg,
         Call.postCall cfg.MASTER_TRADE_SIGNAL_URL cfg.USER_TOKEN cfg.SYMBOL,
         Call.buyCall (jgetD signal "symbol" PyVal.vNone)
           (jgetD signal "quantity" (PyVal.vInt 1))
           (jgetD signal "limitPrice" PyVal.vNone)]
      else if jgetD signal "action" PyVal.vNone = PyVal.vStr "SELL" then
        [login_to_robinhood cfg,
         Call.postCall cfg.MASTER_TRADE_SIGNAL_URL cfg.USER_TOKEN cfg.SYMBOL,
         Call.sellCall (jgetD signal "symbol" PyVal.vNone)
           (jgetD signal "quantity" (PyVal.vInt 1))
           (jgetD signal "limitPrice" PyVal.vNone)]
      else
        [login_to_robinhood cfg,
         Call.postCall cfg.MASTER_TRADE_SIGNAL_URL cfg.USER_TOKEN cfg.SYMBOL] := by
  unfold do_trade_logic
  rw [hl, hp]
  simp only [hs, hj]
  rw [if_neg (by decide : ¬ ((200 : Int) ≠ 200))]
  by_cases h1 : jgetD signal "action" PyVal.vNone = PyVal.vStr "BUY"
  · cases hbe : w.buyExn <;> simp [h1, hbe]
  · by_cases h2 : jgetD signal "action" PyVal.vNone = PyVal.vStr "SELL"
    · cases hse : w.sellExn <;> simp [h1, h2, hse]
    · simp [h1, h2]

/-- C4: when login succeeds and the master returns a non-200 status,
do_trade_logic returns (false, "Master returned error: " ++ body) and
the trace holds only the login and the post — no order is placed. -/
theorem claim4_server_error_reported (cfg : Config) (w : World) (resp : HttpResponse)
    (hl : w.loginExn = none) (hp : w.postResult = Except.ok resp)
    (hs : resp.status_code ≠ 200) :
    do_trade_logic cfg w =
      (Except.ok (false, "Master returned error: " ++ resp.text),
       [login_to_robinhood cfg,
        Call.postCall cfg.MASTER_TRADE_SIGNAL_URL cfg.USER_TOKEN cfg.SYMBOL]) ∧
    orderCount (do_trade_logic cfg w).2 = 0 := by
  have heq : do_trade_logic cfg w =
      (Except.ok (false, "Master returned error: " ++ resp.text),
       [login_to_robinhood cfg,
        Call.postCall cfg.MASTER_TRADE_SIGNAL_URL cfg.USER_TOKEN cfg.SYMBOL]) := by
    unfold do_trade_logic
    rw [hl, hp]
    simp only [if_pos hs]
  exact ⟨heq, by rw [heq]; simp [orderCount, List.filter, isOrder_login, isOrder_post]⟩

/-- C4 witness: status 500 with body bad token yields
(false, "Master returned error: bad token") and an order-free trace. -/
theorem claim4_witness :
    do_trade_logic cfg0 w500 =
      (Except.ok (false, "Master returned error: bad token"),
       [login_to_robinhood cfg0,
        Call.postCall cfg0.MASTER_TRADE_SIGNAL_URL cfg0.USER_TOKEN cfg0.SYMBOL]) ∧
    orderCount (do_trade_logic cfg0 w500).2 = 0 :=
  claim4_server_error_reported cfg0 w500 resp500 rfl rfl (by decide)

/-- C5: with successful login, a 200 response carrying the BUY signal
for ZSC with quantity 1 and limit price 50.0, and a non-raising buy
order call, do_trade_logic places exactly that buy order and returns
(true, "Subscribed successfully to trading strategy"). -/
theorem claim5_buy_success (cfg : Config) (w : World) (resp : HttpResponse)
    (hl : w.loginExn = none) (hp : w.postResult = Except.ok resp)
    (hs : resp.status_code = 200) (hj : resp.jsonBody = Except.ok sigBuy)
    (hb : w.buyExn = none) :
    do_trade_logic cfg w =
      (Except.ok (true, "Subscribed successfully to trading strategy"),
       [login_to_robinhood cfg,
        Call.postCall cfg.MASTER_TRADE_SIGNAL_URL cfg.USER_TOKEN cfg.SYMBOL,
        Call.buyCall (PyVal.vStr "ZSC") (PyVal.vInt 1) (PyVal.vFloat "50.0")]) := by
  unfold do_trade_logic
  rw [hl, hp]
  simp only [hs, hj, hb]
  rw [if_neg (by decide : ¬ ((200 : Int) ≠ 200))]
  rw [if_pos (by decide : jgetD sigBuy "action" PyVal.vNone = PyVal.vStr "BUY")]
  rfl

/-- C5 witness: the spec example run through concrete collaborators. -/
theorem claim5_witness :
    do_trade_logic cfg0 wBuy =
      (Except.ok (true, "Subscribed successfully to trading strategy"),
       [login_to_robinhood cfg0,
        Call.postCall cfg0.MASTER_TRADE_SIGNAL_URL cfg0.USER_TOKEN cfg0.SYMBOL,
        Call.buyCall (PyVal.vStr "ZSC") (PyVal.vInt 1) (PyVal.vFloat "50.0")]) :=
  claim5_buy_success cfg0 wBuy respBuy rfl rfl rfl rfl rfl

/-- C6: when the decoded signal has no quantity field, the order call
selected by the action (buy for BUY, sell for SELL) is invoked with
quantity 1. -/
theorem claim6_quantity_defaults_to_one (cfg : Config) (w : World)
    (resp : HttpResponse) (signal : JsonObj)
    (hl : w.loginExn = none) (hp : w.postResult = Except.ok resp)
    (hs : resp.status_code = 200) (hj : resp.jsonBody = Except.ok signal)
    (hq : jget signal "quantity" = none) :
    (jgetD signal "action" PyVal.vNone = PyVal.vStr "BUY" →
      (do_trade_logic cfg w).2 =
        [login_to_robinhood cfg,
         Call.postCall cfg.MASTER_TRADE_SIGNAL_URL cfg.USER_TOKEN cfg.SYMBOL,
         Call.buyCall (jgetD signal "symbol" PyVal.vNone) (PyVal.vInt 1)
           (jgetD signal "limitPrice" PyVal.vNone)]) ∧
    (jgetD signal "action" PyVal.vNone = PyVal.vStr "SELL" →
      (do_trade_logic cfg w).2 =
        [login_to_robinhood cfg,
         Call.postCall cfg.MASTER_TRADE_SIGNAL_URL cfg.USER_TOKEN cfg.SYMBOL,
         Call.sellCall (jgetD signal "symbol" PyVal.vNone) (PyVal.vInt 1)
           (jgetD signal "limitPrice" PyVal.vNone)]) := by
  have hqd : jgetD signal "quantity" (PyVal.vInt 1) = PyVal.vInt 1 := by
    simp [jgetD, hq]
  have htr := trace_of_signal cfg w resp signal hl hp hs hj
  rw [hqd] at htr
  constructor
  · intro hA
    rw [htr, if_pos hA]
  · intro hA
    have hA2 : jgetD signal "action" PyVal.vNone ≠ PyVal.vStr "BUY" := by
      rw [hA]; decide
    rw [htr, if_neg hA2, if_pos hA]

/-- C6 witness: the BUY signal with no quantity field places a buy order
with quantity 1. -/
theorem claim6_witness :
    (do_trade_logic cfg0 wNoQty).2 =
      [login_to_robinhood cfg0,
       Call.postCall cfg0.MASTER_TRADE_SIGNAL_URL cfg0.USER_TOKEN cfg0.SYMBOL,
       Call.buyCall (PyVal.vStr "ZSC") (PyVal.vInt 1) (PyVal.vFloat "50.0")] :=
  (claim6_quantity_defaults_to_one cfg0 wNoQty respNoQty sigNoQty
    rfl rfl rfl rfl rfl).1 (by decide)

/-- C7: one invocation of do_trade_logic produces exactly one outcome,
its trace holds at most one order placement call, and a buy (resp.
sell) order occurs only when the decoded signal action is BUY (resp.
SELL) — so at most one of the two order operations runs, never both. -/
theorem claim7_single_order_by_action (cfg : Config) (w : World) :
    (∃! r, do_trade_logic cfg w = r) ∧
    orderCount (do_trade_logic cfg w).2 ≤ 1 ∧
    (∀ s q p, Call.buyCall s q p ∈ (do_trade_logic cfg w).2 →
      signalAction w = some (PyVal.vStr "BUY")) ∧
    (∀ s q p, Call.sellCall s q p ∈ (do_trade_logic cfg w).2 →
      signalAction w = some (PyVal.vStr "SELL")) := by
  refine ⟨⟨do_trade_logic cfg w, rfl, fun y hy => hy.symm⟩, ?_⟩
  obtain ⟨l, pr, bx, sx⟩ := w
  rcases l with _ | e
  · rcases pr with e | resp
    · simp [do_trade_logic, signalAction, orderCount, List.filter]
    · obtain ⟨sc, tx, jb⟩ := resp
      by_cases hsc : sc = (200 : Int)
      · subst hsc
        rcases jb with e | signal
        · simp [do_trade_logic, signalAction, orderCount, List.filter]
        · by_cases h1 : jgetD signal "action" PyVal.vNone = PyVal.vStr "BUY"
          · rcases bx with _ | e <;>
              simp [do_trade_logic, signalAction, orderCount, List.filter, h1]
          · by_cases h2 : jgetD signal "action" PyVal.vNone = PyVal.vStr "SELL"
            · rcases sx with _ | e <;>
                simp [do_trade_logic, signalAction, orderCount, List.filter, h1, h2]
            · simp [do_trade_logic, signalAction, orderCount, List.filter, h1, h2]
      · simp [do_trade_logic, signalAction, orderCount, List.filter, hsc]
  · simp [do_trade_logic, signalAction, orderCount, List.filter]

/-- C7 witness: the property instantiated on the concrete BUY run. -/
theorem claim7_witness :
    (∃! r, do_trade_logic cfg0 wBuy = r) ∧
    orderCount (do_trade_logic cfg0 wBuy).2 ≤ 1 ∧
    (∀ s q p, Call.buyCall s q p ∈ (do_trade_logic cfg0 wBuy).2 →
      signalAction wBuy = some (PyVal.vStr "BUY")) ∧
    (∀ s q p, Call.sellCall s q p ∈ (do_trade_logic cfg0 wBuy).2 →
      signalAction wBuy = some (PyVal.vStr "SELL")) :=
  claim7_single_order_by_action cfg0 wBuy

/-- Running the server never changes the configuration: each response is
the pure handler applied to the startup configuration. -/
lemma runServerSt_eq (cfg : Config) (reqs : List Request) :
    runServerSt cfg reqs = (cfg, reqs.map (handle cfg)) := by
  induction reqs with
  | nil => rfl
  | cons r rs ih => simp [runServerSt, handleSt, ih]

/-- C3 counterexample: with a successful login and a 200 response whose
body is not valid JSON, do_trade_logic does not return an outcome pair —
the exception raised by resp.json() on line 106 propagates, because that
call sits outside every try block. -/
theorem claim3_counterexample :
    (do_trade_logic cfg0 wBadJson).1 =
      Except.error "Expecting value: line 1 column 1 (char 0)" := rfl

/-- C3 (amended): do_trade_logic always returns a (boolean, string)
outcome pair and propagates no exception, provided that every 200
response body parses as JSON; the one uncovered spot is resp.json() on
line 106, whose exception escapes the function. -/
theorem claim3_total_unless_unparsable_body (cfg : Config) (w : World)
    (h : ∀ resp, w.postResult = Except.ok resp → resp.status_code = 200 →
      ∃ signal, resp.jsonBody = Except.ok signal) :
    ∃ b m, (do_trade_logic cfg w).1 = Except.ok (b, m) := by
  obtain ⟨l, pr, bx, sx⟩ := w
  rcases l with _ | e
  · rcases pr with e | resp
    · exact ⟨false, "Error calling master: " ++ e, rfl⟩
    · obtain ⟨sc, tx, jb⟩ := resp
      by_cases hsc : sc = (200 : Int)
      · subst hsc
        obtain ⟨signal, hsig⟩ := h ⟨200, tx, jb⟩ rfl rfl
        have hjb : jb = Except.ok signal := hsig
        subst hjb
        by_cases h1 : jgetD signal "action" PyVal.vNone = PyVal.vStr "BUY"
        · rcases bx with _ | e <;>
            simp [do_trade_logic, h1]
        · by_cases h2 : jgetD signal "action" PyVal.vNone = PyVal.vStr "SELL"
          · rcases sx with _ | e <;>
              simp [do_trade_logic, h1, h2]
          · simp [do_trade_logic, h1, h2]
      · simp [do_trade_logic, hsc]
  · exact ⟨false, "Robinhood login failed: " ++ e, rfl⟩

/-- C3 witness: the amended totality applied to a concrete run whose 200
body parses. -/
theorem claim3_witness :
    ∃ b m, (do_trade_logic cfg0 wHold).1 = Except.ok (b, m) :=
  claim3_total_unless_unparsable_body cfg0 wHold (by
    intro resp hr _
    obtain rfl : respHold = resp := Except.ok.inj hr
    exact ⟨[("action", PyVal.vStr "HOLD")], rfl⟩)

/-- C8: the stop-trade handler renders the fixed error-styled message
"Unsubscribed from trading strategy" with no collaborator call; in a
server run it responds identically after any history of prior requests
and leaves the process configuration unchanged. -/
theorem claim8_stop_trade_fixed (cfg : Config) (prior : List Request) :
    stop_trade cfg =
      (Except.ok
         { email := cfg.RH_USERNAME, symbol := cfg.SYMBOL
           message_success := none
           message_error := some "Unsubscribed from trading strategy" },
       []) ∧
    (runServerSt cfg (prior ++ [Request.postStopTrade])).2.getLast? =
      some (stop_trade cfg) ∧
    (runServerSt cfg (prior ++ [Request.postStopTrade])).1 = cfg := by
  refine ⟨rfl, ?_, ?_⟩
  · rw [runServerSt_eq]
    simp [handle]
  · rw [runServerSt_eq]

/-- C8 witness: the stop-trade response after a nonempty prior history. -/
theorem claim8_witness :
    stop_trade cfg0 =
      (Except.ok
         { email := cfg0.RH_USERNAME, symbol := cfg0.SYMBOL
           message_success := none
           message_error := some "Unsubscribed from trading strategy" },
       []) ∧
    (runServerSt cfg0 ([Request.getHome, Request.postTrade wBuy] ++
        [Request.postStopTrade])).2.getLast? =
      some (stop_trade cfg0) ∧
    (runServerSt cfg0 ([Request.getHome, Request.postTrade wBuy] ++
        [Request.postStopTrade])).1 = cfg0 :=
  claim8_stop_trade_fixed cfg0 [Request.getHome, Request.postTrade wBuy]

/-- C9: a successfully loaded configuration takes each of its seven
values from section "default" of the INI file (with the empty-string
fallbacks and AUTO_TRADE through getboolean), AUTO_TRADE is false when
the option is absent, and no sequence of requests ever changes the
loaded configuration. -/
theorem claim9_config_loaded_once (ini : Ini) (cfg : Config) (reqs : List Request)
    (h : loadConfig ini = Except.ok cfg) :
    cfg.RH_USERNAME = cfgGet ini "default" "ROBINHOOD_USERNAME" "" ∧
    cfg.RH_PASSWORD = cfgGet ini "default" "ROBINHOOD_PASSWORD" "" ∧
    cfg.MFA_CODE = cfgGet ini "default" "MFA_CODE" "" ∧
    cfg.MASTER_TRADE_SIGNAL_URL = cfgGet ini "default" "MASTER_TRADE_SIGNAL_URL" "" ∧
    cfg.USER_TOKEN = cfgGet ini "default" "USER_TOKEN" "" ∧
    cfg.SYMBOL = cfgGet ini "default" "SYMBOL" "" ∧
    cfgGetBoolean ini "default" "AUTO_TRADE" false = Except.ok cfg.AUTO_TRADE ∧
    (hasOption ini "default" "auto_trade" = false → cfg.AUTO_TRADE = false) ∧
    (runServerSt cfg reqs).1 = cfg := by
  unfold loadConfig at h
  rcases hb : cfgGetBoolean ini "default" "AUTO_TRADE" false with e | b
  · simp [hb] at h
  · simp only [hb, Except.ok.injEq] at h
    subst h
    refine ⟨rfl, rfl, rfl, rfl, rfl, rfl, ?_, ?_, by rw [runServerSt_eq]⟩
    · rfl
    intro habs
    unfold cfgGetBoolean at hb
    unfold hasOption at habs
    rcases hsec : ini.find? (fun s => s.1 == "default") with _ | sec
    · rw [hsec] at hb
      exact (Except.ok.inj hb).symm
    · rw [hsec] at habs
      simp only [hsec] at hb
      have hopt : sec.2.find? (fun p => p.1 == "auto_trade") = none := by
        simpa [Option.isSome_iff_exists] using habs
      have hlow : toLowerStr "AUTO_TRADE" = "auto_trade" := by decide
      rw [hlow, hopt] at hb
      exact (Except.ok.inj hb).symm

/-- C9 witness: loading an INI file whose default section omits
auto_trade yields the sample configuration with AUTO_TRADE false, and a
run of requests leaves it unchanged. -/
theorem claim9_witness :
    cfg0.RH_USERNAME = cfgGet iniNoAuto "default" "ROBINHOOD_USERNAME" "" ∧
    cfg0.RH_PASSWORD = cfgGet iniNoAuto "default" "ROBINHOOD_PASSWORD" "" ∧
    cfg0.MFA_CODE = cfgGet iniNoAuto "default" "MFA_CODE" "" ∧
    cfg0.MASTER_TRADE_SIGNAL_URL =
      cfgGet iniNoAuto "default" "MASTER_TRADE_SIGNAL_URL" "" ∧
    cfg0.USER_TOKEN = cfgGet iniNoAuto "default" "USER_TOKEN" "" ∧
    cfg0.SYMBOL = cfgGet iniNoAuto "default" "SYMBOL" "" ∧
    cfgGetBoolean iniNoAuto "default" "AUTO_TRADE" false =
      Except.ok cfg0.AUTO_TRADE ∧
    (hasOption iniNoAuto "default" "auto_trade" = false →
      cfg0.AUTO_TRADE = false) ∧
    (runServerSt cfg0 [Request.postStopTrade]).1 = cfg0 :=
  claim9_config_loaded_once iniNoAuto cfg0 [Request.postStopTrade] rfl

/-- C10: login_to_robinhood passes the configured MFA code to the login
call exactly when MFA_CODE is nonempty; with an empty MFA_CODE the login
call carries no mfa_code argument. -/
theorem claim10_mfa_iff_nonempty (cfg : Config) :
    login_to_robinhood cfg =
      Call.loginCall cfg.RH_USERNAME cfg.RH_PASSWORD
        (if cfg.MFA_CODE = "" then none else some cfg.MFA_CODE) := by
  unfold login_to_robinhood
  by_cases h : cfg.MFA_CODE = "" <;> simp [h]

end TradingSignal
